import Mathlib

set_option maxRecDepth 4000

/- A shallow embedding of the CosyVoice2 HTTP TTS service, following
   api/config.py (constants and environment parsing), api/service.py
   (TTSService, get_available_voices, process_audio, load_voice_data)
   and api/main.py (the tts endpoint with its inner inference function,
   verify_api_key and the health route).  Strings, lists and rationals
   model Python strings, lists and the validated speed value; every
   definition is executable so concrete runs evaluate in the kernel. -/

namespace CosyVoiceApi

/-- Python string helper: does `sub` occur contiguously in the character
list starting at any position?  Structural Bool recursion, kernel-evaluable. -/
def infixFrom (sub : List Char) : List Char → Bool
  | [] => List.isPrefixOf sub []
  | c :: rest => List.isPrefixOf sub (c :: rest) || infixFrom sub rest

/-- Python substring test `sub in s`. -/
def strContains (s sub : String) : Bool :=
  infixFrom sub.data s.data

/-- Python `s.endswith(suffix)`. -/
def strEndsWith (s suffix : String) : Bool :=
  List.isSuffixOf suffix.data s.data

/-- Python `s.startswith(p)`. -/
def strStartsWith (s p : String) : Bool :=
  List.isPrefixOf p.data s.data

/-- Fuel-indexed worker for Python `s.replace(pat, rep)`; every step consumes
at least one character of the scanned list when `pat` is nonempty, so a fuel of
`s.length` computes the full replacement. -/
def replaceFuel (rep pat : List Char) : Nat → List Char → List Char
  | _, [] => []
  | 0, s => s
  | fuel + 1, c :: rest =>
    if !pat.isEmpty && List.isPrefixOf pat (c :: rest) then
      rep ++ replaceFuel rep pat fuel (List.drop pat.length (c :: rest))
    else
      c :: replaceFuel rep pat fuel rest

/-- Python `s.replace(pat, rep)` (all occurrences; `pat` nonempty wherever the
source uses it). -/
def strReplace (s pat rep : String) : String :=
  ⟨replaceFuel rep.data pat.data s.data.length s.data⟩

/-- Python `sep.join(items)`. -/
def pyJoin (sep : String) : List String → String
  | [] => ""
  | [x] => x
  | x :: y :: rest => x ++ sep ++ pyJoin sep (y :: rest)

/-- Python `s.lower()` (ASCII case folding, which is all the source's keyword
checks rely on). -/
def pyLower (s : String) : String :=
  ⟨s.data.map Char.toLower⟩

/-- Python truthiness of an optional string, as in `if instruct:`. -/
def pyTruthy : Option String → Bool
  | none => false
  | some s => !(s == "")

/-- config.py: the accepted API keys. -/
def API_KEYS : List String := ["cosyvoice-api-demo"]

/-- config.py: paths exempt from API-key verification. -/
def NO_AUTH_PATHS : List String := ["/docs", "/redoc", "/openapi.json", "/health"]

/-- config.py: API authentication is enabled. -/
def ENABLE_API_AUTH : Bool := true

/-- config.py lines 24-28: parsing of the PRELOAD_MODEL environment variable
(`none` models the variable being unset, so `os.environ.get` yields "True");
the conditional assigns True in the then-branch and True in the else-branch. -/
def parse_preload_model (env : Option String) : Bool :=
  let preload_env := env.getD "True"
  if pyLower preload_env ∈ ["true", "1", "t", "yes", "y"] then true else true

/-- One raw audio chunk: the sample buffer of a `tts_speech` tensor of shape
`[1, N]` (we record the N samples of its single channel row). -/
abbrev Chunk := List Int

/-- The result of one `torchaudio.save` call: a container of the given format
and sample rate holding the written samples. -/
structure AudioPayload where
  fmt : String
  sample_rate : Nat
  samples : List Int
deriving DecidableEq

/-- service.py `process_audio` on a nonempty chunk list:
`torch.concat(tts_speeches, dim=1)` joins the sample dimension of the
`[1, N_i]` chunk tensors in list order and `torchaudio.save` then encodes the
concatenation exactly once.  On the empty list `torch.concat` raises
RuntimeError instead of returning; that raise is modelled at the one call site
that can pass an empty list, the handler's buffered branch (the streaming loop
only ever passes singleton lists). -/
def process_audio (tts_speeches : List Chunk) (sample_rate : Nat) (fmt : String) :
    AudioPayload :=
  ⟨fmt, sample_rate, tts_speeches.flatten⟩

/-- The RuntimeError message `torch.concat` raises on an empty tensor list. -/
def torch_cat_empty_msg : String :=
  "torch.cat(): expected a non-empty list of Tensors"

/-- A Python exception value crossing the service/handler layers. -/
inductive PyErr
  | valueError (msg : String)
  | runtimeError (msg : String)
  | httpException (statusCode : Nat) (detail : String)
deriving DecidableEq

/-- `str(e)` for the exceptions the handlers inspect; a FastAPI/Starlette
HTTPException stringifies as "status_code: detail". -/
def pyStr : PyErr → String
  | .valueError m => m
  | .runtimeError m => m
  | .httpException code detail => toString code ++ ": " ++ detail

/-- One recorded invocation of the CosyVoice2 model. -/
inductive EngineCall
  | sft (text spk : String) (stream : Bool) (speed : ℚ)
  | instruct2 (text instruct : String) (stream : Bool) (speed : ℚ)
deriving DecidableEq

/-- The speed argument an engine invocation carries. -/
def EngineCall.speedOf : EngineCall → ℚ
  | .sft _ _ _ s => s
  | .instruct2 _ _ _ s => s

/-- The opaque inference engine (the loaded CosyVoice2 model): its advertised
speakers and, per invocation, the lazy chunk sequence it will yield; a
`.error` element models the generator raising at that pull. -/
structure Engine where
  list_available_spks : List String
  sft_chunks : String → String → Bool → ℚ → List (Except String Chunk)
  instruct2_chunks : String → String → Chunk → Bool → ℚ → List (Except String Chunk)

/-- TTSService state after `initialize_model`: the pretrained voices and the
custom-voice snapshot `spk_custom` are captured once, at initialization. -/
structure TTSServiceState where
  default_voices : List String
  spk_custom : List String
  engine : Engine
  sample_rate : Nat

/-- What loading `VOICES_DIR/{speaker}.pt` can do: the file may be absent,
load successfully exposing an optional `audio_ref`, or fail to load. -/
inductive LoadOutcome
  | missing
  | ok (audioRef : Option Chunk)
  | failed (msg : String)

/-- The custom-voices directory as it stands at request time: the current
`os.listdir` entries and what `torch.load` does for each speaker file. -/
structure VoicesDir where
  entries : List String
  load : String → LoadOutcome

/-- service.py `load_voice_data`: `.ok none` when the file is absent or the
loaded dict has no `audio_ref`; a load failure raises ValueError. -/
def load_voice_data (dir : VoicesDir) (speaker : String) :
    Except String (Option Chunk) :=
  match dir.load speaker with
  | .missing => .ok none
  | .ok audioRef => .ok audioRef
  | .failed m => .error ("加载音色文件失败: " ++ m)

/-- One entry of the voice listing (name and voice_id coincide in the code). -/
structure Voice where
  name : String
  voice_id : String
deriving DecidableEq

/-- service.py `get_available_voices`: the pretrained speakers first, then one
entry per `*.pt` file found by a fresh scan of the voices directory, with the
`.pt` substring removed; no deduplication is performed. -/
def get_available_voices (svc : TTSServiceState) (dir : VoicesDir) : List Voice :=
  (svc.engine.list_available_spks.map fun n => ⟨n, n⟩) ++
    ((dir.entries.filter fun n => strEndsWith n ".pt").map
      fun n => ⟨strReplace n ".pt" "", strReplace n ".pt" ""⟩)

/-- The ValueError message service.py raises for a speaker in neither the
default nor the snapshot custom list. -/
def voice_not_exist_msg (svc : TTSServiceState) (speaker : String) : String :=
  "音色 '" ++ speaker ++ "' 不存在。可用音色: " ++
    pyJoin ", " (svc.default_voices ++ svc.spk_custom)

/-- service.py generate_tts's missing-reference-audio ValueError message. -/
def svc_no_ref_audio_msg (speaker : String) : String :=
  "无法加载音色 '" ++ speaker ++ "' 的参考音频数据，请确保文件存在且格式正确"

/-- service.py generate_tts's except-clause: the raised error's message decides
one of four RuntimeError rewrites (memory, timeout/connection, not
implemented, or the generic wrap). -/
def classify_generate_error (msg : String) : PyErr :=
  let low := pyLower msg
  if strContains low "memory" then
    .runtimeError ("内存不足，无法处理文本。请尝试减少文本长度或使用流式处理: " ++ msg)
  else if strContains low "timeout" || strContains low "connection" then
    .runtimeError ("网络连接错误，无法访问模型服务: " ++ msg)
  else if strContains low "not implemented" then
    .runtimeError ("当前平台不支持该功能: " ++ msg)
  else
    .runtimeError ("语音生成过程中发生错误: " ++ msg)

/-- The try-body of service.py `TTSService.generate_tts`: speaker check against
the initialization-time lists, then instruct mode (which loads reference audio
and calls inference_instruct2) or default mode (inference_sft).  The second
component records the engine invocations performed. -/
def generate_tts_body (svc : TTSServiceState) (dir : VoicesDir)
    (text speaker : String) (instruct : Option String) (streaming : Bool)
    (speed : ℚ) : Except PyErr (List (Except String Chunk)) × List EngineCall :=
  if speaker ∈ svc.default_voices ∨ speaker ∈ svc.spk_custom then
    if pyTruthy instruct then
      match load_voice_data dir speaker with
      | .error m => (.error (.valueError m), [])
      | .ok none => (.error (.valueError (svc_no_ref_audio_msg speaker)), [])
      | .ok (some prompt_speech_16k) =>
        (.ok (svc.engine.instruct2_chunks text (instruct.getD "")
                prompt_speech_16k streaming speed),
         [.instruct2 text (instruct.getD "") streaming speed])
    else
      (.ok (svc.engine.sft_chunks text speaker streaming speed),
       [.sft text speaker streaming speed])
  else
    (.error (.valueError (voice_not_exist_msg svc speaker)), [])

/-- service.py `TTSService.generate_tts`: the try-body wrapped in the
reclassifying except-clause (every raised error is re-raised via
`classify_generate_error`). -/
def generate_tts (svc : TTSServiceState) (dir : VoicesDir)
    (text speaker : String) (instruct : Option String) (streaming : Bool)
    (speed : ℚ) : Except PyErr (List (Except String Chunk)) × List EngineCall :=
  match generate_tts_body svc dir text speaker instruct streaming speed with
  | (.error e, calls) => (.error (classify_generate_error (pyStr e)), calls)
  | ok => ok

/-- main.py's missing-reference-audio HTTPException detail. -/
def main_no_ref_audio_detail (speaker : String) : String :=
  "无法加载音色 '" ++ speaker ++ "' 的参考音频数据"

/-- The try-body of main.py's inner `inference_func`: in instruct mode it
pre-loads the reference audio and raises HTTP 400 when none is obtainable,
before calling the service; otherwise it delegates to generate_tts. -/
def inference_func_body (svc : TTSServiceState) (dir : VoicesDir)
    (text speaker : String) (instruct : Option String) (streaming_bool : Bool)
    (speed : ℚ) : Except PyErr (List (Except String Chunk)) × List EngineCall :=
  if pyTruthy instruct then
    match load_voice_data dir speaker with
    | .error m => (.error (.valueError m), [])
    | .ok none => (.error (.httpException 400 (main_no_ref_audio_detail speaker)), [])
    | .ok (some _) => generate_tts svc dir text speaker instruct streaming_bool speed
  else
    generate_tts svc dir text speaker none streaming_bool speed

/-- main.py inference_func's except-clause: the raised error is rewritten into
a ValueError keyed on its message ("model inputs", "memory", "not found" or
"音色"), or re-raised unchanged. -/
def map_inference_error (e : PyErr) : PyErr :=
  let error_msg := pyStr e
  if strContains error_msg "model inputs" then
    .valueError "模型输入错误: 文本可能过长或包含不支持的字符"
  else if strContains error_msg "memory" then
    .valueError "内存不足: 请尝试减少文本长度或关闭流式处理"
  else if strContains error_msg "not found" || strContains error_msg "音色" then
    .valueError ("音色错误: " ++ error_msg)
  else
    e

/-- main.py `inference_func`: the try-body wrapped in its except-clause. -/
def inference_func (svc : TTSServiceState) (dir : VoicesDir)
    (text speaker : String) (instruct : Option String) (streaming_bool : Bool)
    (speed : ℚ) : Except PyErr (List (Except String Chunk)) × List EngineCall :=
  match inference_func_body svc dir text speaker instruct streaming_bool speed with
  | (.ok g, calls) => (.ok g, calls)
  | (.error e, calls) => (.error (map_inference_error e), calls)

/-- The non-streaming list comprehension `[i for i in inference_func()]`: every
chunk is pulled to exhaustion; an exception at any pull propagates. -/
def pullAll : List (Except String Chunk) → Except String (List Chunk)
  | [] => .ok []
  | .ok c :: rest => (pullAll rest).map fun l => c :: l
  | .error m :: _ => .error m

/-- main.py's streaming `generate()` loop: each available chunk is encoded on
its own into an ogg fragment and flushed in order; an exception stops the
stream and is logged, never re-raised to the transport. -/
def run_stream : List (Except String Chunk) → List AudioPayload × List String
  | [] => ([], [])
  | .ok c :: rest =>
    let r := run_stream rest
    (process_audio [c] 22050 "ogg" :: r.1, r.2)
  | .error m :: _ => ([], ["流式生成过程中发生错误: " ++ m])

/-- The streaming generator applied to the result of inference_func: an error
raised while creating the generator is caught and logged with no fragment
emitted. -/
def run_stream_gen :
    Except PyErr (List (Except String Chunk)) → List AudioPayload × List String
  | .error e => ([], ["流式生成过程中发生错误: " ++ pyStr e])
  | .ok seq => run_stream seq

/-- The body a tts request resolves to: one buffered wav payload, or a stream
of self-contained fragments together with the errors logged mid-stream. -/
inductive TTSResponse
  | buffered (payload : AudioPayload)
  | stream (fragments : List AudioPayload) (loggedErrors : List String)
deriving DecidableEq

deriving instance DecidableEq for Except

/-- Outcome of one run of the tts handler: the HTTP-level result, the engine
invocations made and the number of torchaudio.save encodings performed. -/
structure HandlerResult where
  response : Except PyErr TTSResponse
  engineCalls : List EngineCall
  encodes : Nat
deriving DecidableEq

/-- main.py's outer except-clauses around the handler body: HTTPException is
re-raised, ValueError becomes HTTP 400, anything else HTTP 500. -/
def map_outer : PyErr → PyErr
  | .httpException code detail => .httpException code detail
  | .valueError m => .httpException 400 m
  | .runtimeError m => .httpException 500 ("服务器内部错误: " ++ m)

/-- main.py `tts` handler body (the service singleton already obtained):
empty-parameter check, speaker validation against a fresh registry listing,
then the streaming or buffered assembly path. -/
def tts_handler (svc : TTSServiceState) (dir : VoicesDir) (text speaker : String)
    (instruct : Option String) (streaming : Int) (speed : ℚ) : HandlerResult :=
  if text == "" || speaker == "" then
    ⟨.error (.httpException 400 "文本和音色ID不能为空"), [], 0⟩
  else
    let available_voice_ids := (get_available_voices svc dir).map Voice.voice_id
    if speaker ∈ available_voice_ids then
      let streaming_bool := streaming != 0
      if streaming_bool then
        let r := inference_func svc dir text speaker instruct streaming_bool speed
        let s := run_stream_gen r.1
        ⟨.ok (.stream s.1 s.2), r.2, s.1.length⟩
      else
        let r := inference_func svc dir text speaker instruct streaming_bool speed
        match r.1 with
        | .error e => ⟨.error (map_outer e), r.2, 0⟩
        | .ok gen =>
          match pullAll gen with
          | .error m =>
            ⟨.error (.httpException 500 ("服务器内部错误: " ++ m)), r.2, 0⟩
          | .ok tts_speeches =>
            if tts_speeches.isEmpty then
              ⟨.error (.httpException 500 ("服务器内部错误: " ++ torch_cat_empty_msg)),
                r.2, 0⟩
            else
              ⟨.ok (.buffered (process_audio tts_speeches 22050 "wav")), r.2, 1⟩
    else
      ⟨.error (.httpException 400 ("音色ID '" ++ speaker ++
        "' 不存在。可用的音色: " ++ pyJoin ", " available_voice_ids)), [], 0⟩

/-- The Query bound 0.5 as an explicit rational, so the kernel can evaluate
speed comparisons on concrete inputs. -/
def speed_lo : ℚ := ⟨1, 2, by decide, by decide⟩

/-- The FastAPI Query/pydantic validation `ge=0.5, le=2.0` on speed. -/
def validate_speed (speed : ℚ) : Bool :=
  decide (speed_lo ≤ speed) && decide (speed ≤ 2)

/-- The whole tts endpoint: FastAPI rejects an out-of-range speed with a
validation error before the handler runs (modelled as `none`); otherwise the
handler's result is returned. -/
def tts_endpoint (svc : TTSServiceState) (dir : VoicesDir) (text speaker : String)
    (instruct : Option String) (streaming : Int) (speed : ℚ) :
    Option HandlerResult :=
  if validate_speed speed then
    some (tts_handler svc dir text speaker instruct streaming speed)
  else
    none

/-- The body of the health route's response. -/
structure HealthResponse where
  status : String
  service : String
deriving DecidableEq

/-- main.py `health_check`: a constant response. -/
def health_check : HealthResponse :=
  ⟨"healthy", "CosyVoice2 API"⟩

/-- The state of the model singleton the other routes depend on; the health
route depends on none of it. -/
inductive EngineLoadState
  | loaded (svc : TTSServiceState)
  | failed (msg : String)
  | notLoaded

/-- The health endpoint: answers from constants whatever the engine state is,
performing no engine invocation (the route also declares no auth dependency). -/
def health_endpoint (_st : EngineLoadState) : HealthResponse × List EngineCall :=
  (health_check, [])

/-- main.py `verify_api_key`: skipped when auth is disabled or the path is on
the allowlist (directly or as a subpath); otherwise a missing or empty key and
an unknown key are rejected with HTTP 401. -/
def verify_api_key (path : String) (api_key : Option String) : Except PyErr Bool :=
  if !ENABLE_API_AUTH then .ok true
  else if NO_AUTH_PATHS.contains path
      || NO_AUTH_PATHS.any (fun p => !(p == "/") && strStartsWith path (p ++ "/")) then
    .ok true
  else
    match api_key with
    | none => .error (.httpException 401 "未提供API密钥")
    | some k =>
      if k == "" then .error (.httpException 401 "未提供API密钥")
      else if API_KEYS.contains k then .ok true
      else .error (.httpException 401 "无效的API密钥")

/- Concrete fixtures used by witnesses and counterexamples. -/

/-- A tiny engine: one pretrained speaker, a two-chunk sft sequence, a
one-chunk instruct sequence. -/
def engineW : Engine :=
  ⟨["alice"], fun _ _ _ _ => [.ok [1, 2, 3], .ok [4, 5]], fun _ _ _ _ _ => [.ok [7]]⟩

/-- Service state built from `engineW` with an empty custom snapshot. -/
def svcW : TTSServiceState := ⟨["alice"], [], engineW, 24000⟩

/-- An empty voices directory whose loads all report a missing file. -/
def dirW : VoicesDir := ⟨[], fun _ => .missing⟩

/-- An engine whose sft generator raises at the second pull. -/
def engineE : Engine :=
  ⟨["alice"], fun _ _ _ _ => [.ok [9], .error "CUDA error"], fun _ _ _ _ _ => []⟩

/-- Service state built from the failing engine. -/
def svcE : TTSServiceState := ⟨["alice"], [], engineE, 24000⟩

/-- A voices directory holding `alice.pt`, so the custom scan repeats the
pretrained id `alice`. -/
def dirDup : VoicesDir := ⟨["alice.pt"], fun _ => .missing⟩

/-- A voices directory holding `bob.pt`, a file added after initialization
(absent from `svcW`'s snapshot). -/
def dirBob : VoicesDir := ⟨["bob.pt"], fun _ => .ok (some [0])⟩

/- Helper lemmas about the Python string model. -/

theorem isPrefixOf_append_of_isPrefixOf {p a : List Char} (b : List Char)
    (h : List.isPrefixOf p a = true) : List.isPrefixOf p (a ++ b) = true := by
  rw [List.isPrefixOf_iff_prefix] at h ⊢
  exact h.trans (List.prefix_append a b)

theorem infixFrom_append_left {sub a : List Char} (b : List Char)
    (h : infixFrom sub a = true) : infixFrom sub (a ++ b) = true := by
  induction a with
  | nil =>
    have hs : sub = [] := by
      unfold infixFrom at h
      exact List.prefix_nil.mp (List.isPrefixOf_iff_prefix.mp h)
    subst hs
    cases b with
    | nil => simpa using h
    | cons c rest => simp [infixFrom, List.isPrefixOf]
  | cons c rest ih =>
    unfold infixFrom at h
    rw [List.cons_append]
    unfold infixFrom
    rw [Bool.or_eq_true] at h ⊢
    rcases h with h' | h'
    · exact Or.inl (isPrefixOf_append_of_isPrefixOf b h')
    · exact Or.inr (ih h')

theorem infixFrom_append_right {sub : List Char} (a : List Char) {b : List Char}
    (h : infixFrom sub b = true) : infixFrom sub (a ++ b) = true := by
  induction a with
  | nil => exact h
  | cons c rest ih =>
    rw [List.cons_append]
    unfold infixFrom
    rw [Bool.or_eq_true]
    exact Or.inr ih

theorem strContains_append_left {a : String} (b : String) {sub : String}
    (h : strContains a sub = true) : strContains (a ++ b) sub = true := by
  unfold strContains at h ⊢
  rw [String.data_append]
  exact infixFrom_append_left _ h

theorem strContains_append_right (a : String) {b sub : String}
    (h : strContains b sub = true) : strContains (a ++ b) sub = true := by
  unfold strContains at h ⊢
  rw [String.data_append]
  exact infixFrom_append_right _ h

theorem strContains_self (s : String) : strContains s s = true := by
  unfold strContains
  cases h : s.data with
  | nil => simp [infixFrom, List.isPrefixOf]
  | cons c rest =>
    unfold infixFrom
    rw [Bool.or_eq_true]
    exact Or.inl (List.isPrefixOf_iff_prefix.mpr (List.prefix_refl _))

theorem strContains_pyJoin {sep : String} {l : List String} {v : String}
    (h : v ∈ l) : strContains (pyJoin sep l) v = true := by
  induction l with
  | nil => cases h
  | cons x xs ih =>
    cases xs with
    | nil =>
      rcases List.mem_singleton.mp h with rfl
      exact strContains_self v
    | cons y rest =>
      rcases List.mem_cons.mp h with rfl | h'
      · show strContains (v ++ sep ++ pyJoin sep (y :: rest)) v = true
        exact strContains_append_left _ (strContains_append_left _ (strContains_self v))
      · show strContains (x ++ sep ++ pyJoin sep (y :: rest)) v = true
        exact strContains_append_right _ (ih h')

/- Helper lemmas about the chunk pipeline. -/

theorem pullAll_map_ok (chunks : List Chunk) :
    pullAll (chunks.map Except.ok) = .ok chunks := by
  induction chunks with
  | nil => rfl
  | cons c rest ih =>
    rw [List.map_cons]
    unfold pullAll
    rw [ih]
    rfl

theorem run_stream_map_ok (chunks : List Chunk) :
    run_stream (chunks.map Except.ok) =
      (chunks.map fun c => process_audio [c] 22050 "ogg", []) := by
  induction chunks with
  | nil => rfl
  | cons c rest ih =>
    rw [List.map_cons]
    unfold run_stream
    rw [ih]
    rfl

theorem run_stream_ok_then_error (chunks : List Chunk) (m : String)
    (rest : List (Except String Chunk)) :
    run_stream (chunks.map Except.ok ++ Except.error m :: rest) =
      (chunks.map fun c => process_audio [c] 22050 "ogg",
       ["流式生成过程中发生错误: " ++ m]) := by
  induction chunks with
  | nil => rfl
  | cons c cs ih =>
    rw [List.map_cons, List.cons_append]
    unfold run_stream
    rw [ih]
    rfl

/- Claim statements and proofs. -/

/-- Claim C9: whatever the PRELOAD_MODEL environment variable holds (including
"false", "0", "no", or unset = none), the parsed configuration constant is
true, because both branches of the conditional in config.py assign True. -/
theorem C9_preload_always_true (env : Option String) :
    parse_preload_model env = true := by
  simp [parse_preload_model]

/-- Claim C8: the health endpoint returns the constant status/service pair for
every engine-load state (also when the model failed to load), performing no
engine invocation; and the /health path passes verify_api_key with any key
(even none), being on the NO_AUTH_PATHS allowlist. -/
theorem C8_health_independent :
    (∀ st : EngineLoadState,
      health_endpoint st = (⟨"healthy", "CosyVoice2 API"⟩, [])) ∧
    (∀ key : Option String, verify_api_key "/health" key = .ok true) ∧
    "/health" ∈ NO_AUTH_PATHS := by
  refine ⟨fun _ => rfl, fun key => rfl, by decide⟩

/-- Counterexample to claim C3: with pretrained speaker "alice" and a custom
file alice.pt, the listing holds two entries with the same voice id — the
registry performs no deduplication. -/
theorem C3_counterexample_duplicate_ids :
    ((get_available_voices svcW dirDup).map Voice.voice_id = ["alice", "alice"]) ∧
    ¬ ((get_available_voices svcW dirDup).map Voice.voice_id).Nodup := by
  exact ⟨by decide, by decide⟩

/-- Claim C3 as amended: the voice listing is the pretrained speakers, in
order, followed by one entry per .pt file of the current directory scan (with
".pt" removed); entries are not deduplicated, so a custom voice sharing an id
with a built-in yields a second entry after the built-in one. -/
theorem C3_amended_listing (svc : TTSServiceState) (dir : VoicesDir) :
    (get_available_voices svc dir).map Voice.voice_id =
      svc.engine.list_available_spks ++
        ((dir.entries.filter fun n => strEndsWith n ".pt").map
          fun n => strReplace n ".pt" "") := by
  unfold get_available_voices
  rw [List.map_append, List.map_map, List.map_map]
  have h1 : (Voice.voice_id ∘ fun n : String => (⟨n, n⟩ : Voice)) = id := by
    funext n; rfl
  have h2 : (Voice.voice_id ∘ fun n : String =>
      (⟨strReplace n ".pt" "", strReplace n ".pt" ""⟩ : Voice)) =
      fun n => strReplace n ".pt" "" := by
    funext n; rfl
  rw [h1, h2, List.map_id]

/- Speed-propagation lemmas: every engine call records the request's speed. -/

theorem generate_tts_body_speed (svc : TTSServiceState) (dir : VoicesDir)
    (text speaker : String) (instruct : Option String) (streaming : Bool)
    (speed : ℚ) :
    ∀ c ∈ (generate_tts_body svc dir text speaker instruct streaming speed).2,
      EngineCall.speedOf c = speed := by
  intro c hc
  unfold generate_tts_body at hc
  split at hc
  · split at hc
    · split at hc
      · simp at hc
      · simp at hc
      · rw [List.mem_singleton] at hc; subst hc; rfl
    · rw [List.mem_singleton] at hc; subst hc; rfl
  · simp at hc

theorem generate_tts_calls (svc : TTSServiceState) (dir : VoicesDir)
    (text speaker : String) (instruct : Option String) (streaming : Bool)
    (speed : ℚ) :
    (generate_tts svc dir text speaker instruct streaming speed).2 =
      (generate_tts_body svc dir text speaker instruct streaming speed).2 := by
  unfold generate_tts
  cases hb : generate_tts_body svc dir text speaker instruct streaming speed with
  | mk res calls => cases res <;> rfl

theorem generate_tts_speed (svc : TTSServiceState) (dir : VoicesDir)
    (text speaker : String) (instruct : Option String) (streaming : Bool)
    (speed : ℚ) :
    ∀ c ∈ (generate_tts svc dir text speaker instruct streaming speed).2,
      EngineCall.speedOf c = speed := by
  intro c hc
  rw [generate_tts_calls] at hc
  exact generate_tts_body_speed svc dir text speaker instruct streaming speed c hc

theorem inference_func_calls (svc : TTSServiceState) (dir : VoicesDir)
    (text speaker : String) (instruct : Option String) (streaming_bool : Bool)
    (speed : ℚ) :
    (inference_func svc dir text speaker instruct streaming_bool speed).2 =
      (inference_func_body svc dir text speaker instruct streaming_bool speed).2 := by
  unfold inference_func
  cases hb : inference_func_body svc dir text speaker instruct streaming_bool speed with
  | mk res calls => cases res <;> rfl

theorem inference_func_body_speed (svc : TTSServiceState) (dir : VoicesDir)
    (text speaker : String) (instruct : Option String) (streaming_bool : Bool)
    (speed : ℚ) :
    ∀ c ∈ (inference_func_body svc dir text speaker instruct streaming_bool speed).2,
      EngineCall.speedOf c = speed := by
  intro c hc
  unfold inference_func_body at hc
  split at hc
  · split at hc
    · simp at hc
    · simp at hc
    · exact generate_tts_speed svc dir text speaker instruct streaming_bool speed c hc
  · exact generate_tts_speed svc dir text speaker none streaming_bool speed c hc

theorem inference_func_speed (svc : TTSServiceState) (dir : VoicesDir)
    (text speaker : String) (instruct : Option String) (streaming_bool : Bool)
    (speed : ℚ) :
    ∀ c ∈ (inference_func svc dir text speaker instruct streaming_bool speed).2,
      EngineCall.speedOf c = speed := by
  intro c hc
  rw [inference_func_calls] at hc
  exact inference_func_body_speed svc dir text speaker instruct streaming_bool speed c hc

theorem tts_handler_speed (svc : TTSServiceState) (dir : VoicesDir)
    (text speaker : String) (instruct : Option String) (streaming : Int)
    (speed : ℚ) :
    ∀ c ∈ (tts_handler svc dir text speaker instruct streaming speed).engineCalls,
      EngineCall.speedOf c = speed := by
  intro c hc
  unfold tts_handler at hc
  simp only [] at hc
  split at hc
  · simp at hc
  · split at hc
    · split at hc
      · exact inference_func_speed svc dir text speaker instruct (streaming != 0)
          speed c (by simpa using hc)
      · split at hc
        · exact inference_func_speed svc dir text speaker instruct (streaming != 0)
            speed c (by simpa using hc)
        · split at hc
          · exact inference_func_speed svc dir text speaker instruct (streaming != 0)
              speed c (by simpa using hc)
          · split at hc
            · exact inference_func_speed svc dir text speaker instruct (streaming != 0)
                speed c (by simpa using hc)
            · exact inference_func_speed svc dir text speaker instruct (streaming != 0)
                speed c (by simpa using hc)
    · simp at hc

theorem speed_lo_eq_half : speed_lo = 1/2 := by
  have h1 : ((1 : ℚ)/2).num = 1 := by norm_num
  have h2 : ((1 : ℚ)/2).den = 2 := by norm_num
  exact Rat.ext (by rw [h1]; rfl) (by rw [h2]; rfl)

theorem validate_speed_iff (s : ℚ) :
    validate_speed s = true ↔ 1/2 ≤ s ∧ s ≤ 2 := by
  unfold validate_speed
  rw [Bool.and_eq_true, decide_eq_true_eq, decide_eq_true_eq, speed_lo_eq_half]

/-- Counterexample to claim C4 as stated: the request with speed 3 (outside
[0.5, 2.0]) is rejected by the endpoint's parameter validation — the handler
never runs and no engine call with a clamped speed occurs, refuting "clamped
rather than rejected". -/
theorem C4_counterexample_reject_not_clamp :
    tts_endpoint svcW dirW "你好" "alice" none 0 3 = none := by
  decide

/-- Claim C4 as amended: a speed outside [0.5, 2.0] causes the request to be
rejected by validation before the handler runs (no clamping); consequently
every engine invocation of an admitted request carries the request speed,
which lies in [0.5, 2.0]. -/
theorem C4_amended_speed_in_range :
    (∀ (svc : TTSServiceState) (dir : VoicesDir) (text speaker : String)
        (instruct : Option String) (streaming : Int) (speed : ℚ)
        (r : HandlerResult),
        tts_endpoint svc dir text speaker instruct streaming speed = some r →
        ∀ c ∈ r.engineCalls,
          1/2 ≤ EngineCall.speedOf c ∧ EngineCall.speedOf c ≤ 2) ∧
    (∀ (svc : TTSServiceState) (dir : VoicesDir) (text speaker : String)
        (instruct : Option String) (streaming : Int) (speed : ℚ),
        ¬ (1/2 ≤ speed ∧ speed ≤ 2) →
        tts_endpoint svc dir text speaker instruct streaming speed = none) := by
  constructor
  · intro svc dir text speaker instruct streaming speed r hr c hc
    unfold tts_endpoint at hr
    by_cases hv : validate_speed speed = true
    · rw [if_pos hv] at hr
      injection hr with h
      subst h
      rw [tts_handler_speed svc dir text speaker instruct streaming speed c hc]
      exact (validate_speed_iff speed).mp hv
    · rw [if_neg (by simpa using hv)] at hr
      cases hr
  · intro svc dir text speaker instruct streaming speed hrange
    unfold tts_endpoint
    rw [if_neg]
    intro hv
    exact hrange ((validate_speed_iff speed).mp hv)

/-- The handler under passing parameter and membership checks reduces to its
mode dispatch. -/
theorem tts_handler_eval (svc : TTSServiceState) (dir : VoicesDir)
    (text speaker : String) (instruct : Option String) (streaming : Int)
    (speed : ℚ)
    (hcond : (text == "" || speaker == "") = false)
    (hmem : speaker ∈ (get_available_voices svc dir).map Voice.voice_id) :
    tts_handler svc dir text speaker instruct streaming speed =
      if (streaming != 0) then
        let r := inference_func svc dir text speaker instruct (streaming != 0) speed
        let s := run_stream_gen r.1
        ⟨.ok (.stream s.1 s.2), r.2, s.1.length⟩
      else
        let r := inference_func svc dir text speaker instruct (streaming != 0) speed
        match r.1 with
        | .error e => ⟨.error (map_outer e), r.2, 0⟩
        | .ok gen =>
          match pullAll gen with
          | .error m =>
            ⟨.error (.httpException 500 ("服务器内部错误: " ++ m)), r.2, 0⟩
          | .ok tts_speeches =>
            if tts_speeches.isEmpty then
              ⟨.error (.httpException 500 ("服务器内部错误: " ++ torch_cat_empty_msg)),
                r.2, 0⟩
            else
              ⟨.ok (.buffered (process_audio tts_speeches 22050 "wav")), r.2, 1⟩ := by
  unfold tts_handler
  rw [hcond]
  rw [if_neg (by simp)]
  simp only []
  rw [if_pos hmem]

/-- The main.py missing-reference-audio message always contains the substring
"音色", so the handler's except-clause rewrites it to the voice error. -/
theorem yinse_in_no_ref_detail (speaker : String) :
    strContains (pyStr (.httpException 400 (main_no_ref_audio_detail speaker)))
      "音色" = true := by
  show strContains ((toString 400 ++ ": ") ++
    (("无法加载音色 '" ++ speaker) ++ "' 的参考音频数据")) "音色" = true
  apply strContains_append_right
  apply strContains_append_left
  apply strContains_append_left
  decide

/-- With a truthy instruction and no loadable reference audio, inference_func
raises the rewritten voice error before any engine invocation. -/
theorem inference_func_no_ref (svc : TTSServiceState) (dir : VoicesDir)
    (text speaker : String) (instruct : Option String) (streaming_bool : Bool)
    (speed : ℚ)
    (hinstr : pyTruthy instruct = true)
    (hload : load_voice_data dir speaker = .ok none)
    (hm1 : strContains (pyStr (.httpException 400 (main_no_ref_audio_detail speaker)))
      "model inputs" = false)
    (hm2 : strContains (pyStr (.httpException 400 (main_no_ref_audio_detail speaker)))
      "memory" = false) :
    inference_func svc dir text speaker instruct streaming_bool speed =
      (.error (.valueError ("音色错误: " ++
        pyStr (.httpException 400 (main_no_ref_audio_detail speaker)))), []) := by
  have hbody : inference_func_body svc dir text speaker instruct streaming_bool speed =
      (.error (.httpException 400 (main_no_ref_audio_detail speaker)), []) := by
    unfold inference_func_body
    rw [hinstr, if_pos rfl, hload]
  have hmap : map_inference_error (.httpException 400 (main_no_ref_audio_detail speaker)) =
      .valueError ("音色错误: " ++
        pyStr (.httpException 400 (main_no_ref_audio_detail speaker))) := by
    unfold map_inference_error
    simp only []
    rw [hm1, if_neg (by simp), hm2, if_neg (by simp),
      yinse_in_no_ref_detail, Bool.or_true, if_pos rfl]
  unfold inference_func
  rw [hbody]
  simp only []
  rw [hmap]

/-- Claim C1: for every request (streaming or not) whose instruction is truthy
and whose resolved voice has no loadable reference audio (load_voice_data
returns none), the pipeline fails before any engine invocation — its engine
call list is empty — with a user-correctable error naming the missing
reference audio: HTTP 400 for a non-streaming request, a logged ValueError
(and an empty stream) for a streaming one.  The two substring premises rule
out a speaker name that itself matches the handler's "model inputs"/"memory"
message rewrites. -/
theorem C1_fail_fast_missing_ref_audio (svc : TTSServiceState) (dir : VoicesDir)
    (text speaker : String) (instruct : Option String) (streaming : Int)
    (speed : ℚ)
    (htext : (text == "") = false) (hspk : (speaker == "") = false)
    (hval : validate_speed speed = true)
    (hmem : speaker ∈ (get_available_voices svc dir).map Voice.voice_id)
    (hinstr : pyTruthy instruct = true)
    (hload : load_voice_data dir speaker = .ok none)
    (hm1 : strContains (pyStr (.httpException 400 (main_no_ref_audio_detail speaker)))
      "model inputs" = false)
    (hm2 : strContains (pyStr (.httpException 400 (main_no_ref_audio_detail speaker)))
      "memory" = false) :
    (streaming = 0 →
      tts_endpoint svc dir text speaker instruct streaming speed =
        some ⟨.error (.httpException 400 ("音色错误: " ++
          pyStr (.httpException 400 (main_no_ref_audio_detail speaker)))), [], 0⟩) ∧
    (streaming ≠ 0 →
      tts_endpoint svc dir text speaker instruct streaming speed =
        some ⟨.ok (.stream [] ["流式生成过程中发生错误: " ++ ("音色错误: " ++
          pyStr (.httpException 400 (main_no_ref_audio_detail speaker)))]),
          [], 0⟩) := by
  have hcond : (text == "" || speaker == "") = false := by rw [htext, hspk]; rfl
  constructor
  · intro hs
    subst hs
    unfold tts_endpoint
    rw [if_pos hval,
      tts_handler_eval svc dir text speaker instruct 0 speed hcond hmem,
      if_neg (by decide)]
    simp only []
    rw [show ((0 : Int) != 0) = false from rfl,
      inference_func_no_ref svc dir text speaker instruct false speed
        hinstr hload hm1 hm2]
    rfl
  · intro hs
    have hb : (streaming != 0) = true := by simpa using hs
    unfold tts_endpoint
    rw [if_pos hval,
      tts_handler_eval svc dir text speaker instruct streaming speed hcond hmem,
      if_pos hb]
    simp only []
    rw [hb,
      inference_func_no_ref svc dir text speaker instruct true speed
        hinstr hload hm1 hm2]
    rfl

/-- Witness for claim C1: the concrete non-streaming request for built-in
voice alice with instruction "开心" and no alice.pt on disk. -/
theorem C1_witness :
    pyTruthy (some "开心") = true ∧
    load_voice_data dirW "alice" = .ok none ∧
    tts_endpoint svcW dirW "你好" "alice" (some "开心") 0 1 =
      some ⟨.error (.httpException 400 ("音色错误: " ++
        pyStr (.httpException 400 (main_no_ref_audio_detail "alice")))), [], 0⟩ :=
  ⟨by decide, by decide,
    (C1_fail_fast_missing_ref_audio svcW dirW "你好" "alice" (some "开心") 0 1
      (by decide) (by decide) (by decide) (by decide) (by decide) (by decide)
      (by decide) (by decide)).1 rfl⟩

/-- Claim C2: for every non-streaming request whose engine invocation yields a
finite nonempty all-ok chunk sequence, the buffered response pulls all chunks,
concatenates their sample buffers in arrival order, encodes exactly once, and
its total sample count is the sum of the chunks' sample counts.  (On an empty
chunk sequence the program does not produce a buffered payload at all:
torch.concat raises and the handler answers HTTP 500 with zero encodes, as the
embedded handler states.) -/
theorem C2_buffered_concat (svc : TTSServiceState) (dir : VoicesDir)
    (text speaker : String) (instruct : Option String) (speed : ℚ)
    (chunks : List Chunk) (calls : List EngineCall)
    (htext : (text == "") = false) (hspk : (speaker == "") = false)
    (hval : validate_speed speed = true)
    (hmem : speaker ∈ (get_available_voices svc dir).map Voice.voice_id)
    (hne : chunks ≠ [])
    (hinf : inference_func svc dir text speaker instruct false speed =
      (.ok (chunks.map Except.ok), calls)) :
    tts_endpoint svc dir text speaker instruct 0 speed =
      some ⟨.ok (.buffered ⟨"wav", 22050, chunks.flatten⟩), calls, 1⟩ ∧
    chunks.flatten.length = (chunks.map List.length).sum := by
  have hcond : (text == "" || speaker == "") = false := by rw [htext, hspk]; rfl
  constructor
  · unfold tts_endpoint
    rw [if_pos hval,
      tts_handler_eval svc dir text speaker instruct 0 speed hcond hmem,
      if_neg (by decide)]
    simp only []
    rw [show ((0 : Int) != 0) = false from rfl, hinf]
    simp only []
    rw [pullAll_map_ok]
    simp only []
    rw [if_neg (fun h => hne (by simpa using h))]
    rfl
  · exact List.length_flatten chunks

/-- Witness for claim C2: the concrete engine yields chunks of 3 and 2
samples; the buffered response holds their 5-sample concatenation. -/
theorem C2_witness :
    inference_func svcW dirW "你好" "alice" none false 1 =
      (.ok ([[1, 2, 3], [4, 5]].map Except.ok), [.sft "你好" "alice" false 1]) ∧
    tts_endpoint svcW dirW "你好" "alice" none 0 1 =
      some ⟨.ok (.buffered ⟨"wav", 22050, [[1, 2, 3], [4, 5]].flatten⟩),
        [.sft "你好" "alice" false 1], 1⟩ ∧
    ([[1, 2, 3], [4, 5]] : List Chunk).flatten.length =
      (([[1, 2, 3], [4, 5]] : List Chunk).map List.length).sum :=
  ⟨by decide,
    (C2_buffered_concat svcW dirW "你好" "alice" none 1 [[1, 2, 3], [4, 5]]
      [.sft "你好" "alice" false 1] (by decide) (by decide) (by decide)
      (by decide) (by decide) (by decide)).1,
    (C2_buffered_concat svcW dirW "你好" "alice" none 1 [[1, 2, 3], [4, 5]]
      [.sft "你好" "alice" false 1] (by decide) (by decide) (by decide)
      (by decide) (by decide) (by decide)).2⟩

/-- Claim C5: for every streaming request whose chunk production raises after
some chunks were produced, the stream holds exactly one self-contained encoded
fragment per pre-failure chunk, in order; the failure is logged once; the
response remains the already-started 200 stream (an `.ok` stream value — no
exception reaches the transport); and the chunks after the failure are never
encoded. -/
theorem C5_stream_failure (svc : TTSServiceState) (dir : VoicesDir)
    (text speaker : String) (instruct : Option String) (streaming : Int)
    (speed : ℚ) (chunks : List Chunk) (m : String)
    (rest : List (Except String Chunk)) (calls : List EngineCall)
    (htext : (text == "") = false) (hspk : (speaker == "") = false)
    (hval : validate_speed speed = true)
    (hmem : speaker ∈ (get_available_voices svc dir).map Voice.voice_id)
    (hstream : streaming ≠ 0)
    (hinf : inference_func svc dir text speaker instruct true speed =
      (.ok (chunks.map Except.ok ++ Except.error m :: rest), calls)) :
    tts_endpoint svc dir text speaker instruct streaming speed =
      some ⟨.ok (.stream (chunks.map fun c => process_audio [c] 22050 "ogg")
        ["流式生成过程中发生错误: " ++ m]), calls, chunks.length⟩ := by
  have hcond : (text == "" || speaker == "") = false := by rw [htext, hspk]; rfl
  have hb : (streaming != 0) = true := by simpa using hstream
  unfold tts_endpoint
  rw [if_pos hval,
    tts_handler_eval svc dir text speaker instruct streaming speed hcond hmem,
    if_pos hb]
  simp only []
  rw [hb, hinf]
  simp only [run_stream_gen]
  rw [run_stream_ok_then_error]
  simp only []
  rw [List.length_map]

/-- Witness for claim C5: the concrete engine emits one chunk and then raises;
the stream holds the one encoded fragment and the logged error. -/
theorem C5_witness :
    inference_func svcE dirW "你好" "alice" none true 1 =
      (.ok ([[9]].map Except.ok ++ Except.error "CUDA error" :: []),
        [.sft "你好" "alice" true 1]) ∧
    tts_endpoint svcE dirW "你好" "alice" none 1 1 =
      some ⟨.ok (.stream ([[9]].map fun c => process_audio [c] 22050 "ogg")
        ["流式生成过程中发生错误: " ++ "CUDA error"]),
        [.sft "你好" "alice" true 1], ([[9]] : List Chunk).length⟩ :=
  ⟨by decide,
    C5_stream_failure svcE dirW "你好" "alice" none 1 1 [[9]] "CUDA error" []
      [.sft "你好" "alice" true 1] (by decide) (by decide) (by decide)
      (by decide) (by decide) (by decide)⟩

/-- Claim C7: for every request whose speaker is not among the freshly listed
voice ids, the endpoint answers HTTP 400 whose message carries the joined list
of all currently valid voice ids (each id occurs in the message), and the
engine call list is empty. -/
theorem C7_unknown_voice_lists_ids (svc : TTSServiceState) (dir : VoicesDir)
    (text speaker : String) (instruct : Option String) (streaming : Int)
    (speed : ℚ)
    (htext : (text == "") = false) (hspk : (speaker == "") = false)
    (hval : validate_speed speed = true)
    (hnotmem : speaker ∉ (get_available_voices svc dir).map Voice.voice_id) :
    tts_endpoint svc dir text speaker instruct streaming speed =
      some ⟨.error (.httpException 400 ("音色ID '" ++ speaker ++
        "' 不存在。可用的音色: " ++
        pyJoin ", " ((get_available_voices svc dir).map Voice.voice_id))), [], 0⟩ ∧
    ∀ v ∈ (get_available_voices svc dir).map Voice.voice_id,
      strContains ("音色ID '" ++ speaker ++ "' 不存在。可用的音色: " ++
        pyJoin ", " ((get_available_voices svc dir).map Voice.voice_id)) v = true := by
  have hcond : (text == "" || speaker == "") = false := by rw [htext, hspk]; rfl
  constructor
  · unfold tts_endpoint
    rw [if_pos hval]
    unfold tts_handler
    rw [hcond]
    rw [if_neg (by simp)]
    simp only []
    rw [if_neg hnotmem]
  · intro v hv
    exact strContains_append_right _ (strContains_pyJoin hv)

/-- Witness for claim C7: the unknown speaker ghost is rejected with the
listing of the only valid id alice, and no engine call happens. -/
theorem C7_witness :
    "ghost" ∉ (get_available_voices svcW dirW).map Voice.voice_id ∧
    tts_endpoint svcW dirW "你好" "ghost" none 0 1 =
      some ⟨.error (.httpException 400 ("音色ID '" ++ "ghost" ++
        "' 不存在。可用的音色: " ++
        pyJoin ", " ((get_available_voices svcW dirW).map Voice.voice_id))), [], 0⟩ :=
  ⟨by decide,
    (C7_unknown_voice_lists_ids svcW dirW "你好" "ghost" none 0 1
      (by decide) (by decide) (by decide) (by decide)).1⟩

/-- Claim C10: generate_tts checks the speaker against the spk_custom snapshot
taken at initialization, while get_available_voices rescans the directory per
call; a .pt file present in the directory now but absent from the snapshot
(and not a default voice) is listed by get_available_voices, yet generate_tts
raises the (reclassified) voice-does-not-exist error and performs no engine
invocation. -/
theorem C10_stale_snapshot (svc : TTSServiceState) (dir : VoicesDir)
    (name speaker text : String) (instruct : Option String) (streaming : Bool)
    (speed : ℚ)
    (hpt : strEndsWith name ".pt" = true)
    (hstrip : strReplace name ".pt" "" = speaker)
    (hent : name ∈ dir.entries)
    (hdef : speaker ∉ svc.default_voices)
    (hsnap : speaker ∉ svc.spk_custom) :
    speaker ∈ (get_available_voices svc dir).map Voice.voice_id ∧
    generate_tts svc dir text speaker instruct streaming speed =
      (.error (classify_generate_error (voice_not_exist_msg svc speaker)), []) := by
  constructor
  · unfold get_available_voices
    rw [List.map_append, List.map_map, List.map_map]
    refine List.mem_append.mpr (Or.inr ?_)
    refine List.mem_map.mpr ⟨name, List.mem_filter.mpr ⟨hent, hpt⟩, ?_⟩
    show strReplace name ".pt" "" = speaker
    exact hstrip
  · have hbody : generate_tts_body svc dir text speaker instruct streaming speed =
        (.error (.valueError (voice_not_exist_msg svc speaker)), []) := by
      unfold generate_tts_body
      rw [if_neg]
      rintro (h | h)
      · exact hdef h
      · exact hsnap h
    unfold generate_tts
    rw [hbody]
    rfl

/-- Witness for claim C10: bob.pt was added after initialization; bob is
listed but generate_tts rejects it. -/
theorem C10_witness :
    ("bob.pt" ∈ dirBob.entries ∧ "bob" ∉ svcW.spk_custom) ∧
    ("bob" ∈ (get_available_voices svcW dirBob).map Voice.voice_id ∧
      generate_tts svcW dirBob "你好" "bob" none false 1 =
        (.error (classify_generate_error (voice_not_exist_msg svcW "bob")), [])) :=
  ⟨⟨by decide, by decide⟩,
    C10_stale_snapshot svcW dirBob "bob.pt" "bob" "你好" none false 1
      (by decide) (by decide) (by decide) (by decide) (by decide)⟩

/-- Witness for claim C4: at the concrete admitted request (speed 1) the
amended theorem applies and gives the engine call's speed in range. -/
theorem C4_witness :
    (1 : ℚ)/2 ≤ EngineCall.speedOf (.sft "你好" "alice" false 1) ∧
      EngineCall.speedOf (.sft "你好" "alice" false 1) ≤ 2 :=
  C4_amended_speed_in_range.1 svcW dirW "你好" "alice" none 0 1
    ⟨.ok (.buffered ⟨"wav", 22050, [1, 2, 3, 4, 5]⟩), [.sft "你好" "alice" false 1], 1⟩
    (by decide) (.sft "你好" "alice" false 1) (by decide)

end CosyVoiceApi
